import Mathlib

/-!
# Verification of the car-dealer-crm prediction core

Shallow embedding of the repository's three ML scripts:

* `server/ml/predict_realistic.py`  — the heuristic predictor,
* `server/ml/predict_quantiles.py`  — the learned predictor,
* `server/ml/train_quantiles.py`    — the trainer's data preparation.

Conventions of the embedding:

* Python numbers are embedded as exact rationals (`ℚ`); decimal literals
  such as `0.87` are the exact rationals `87/100`.
* `int(x)` is truncation toward zero (`pyInt`), `round(x, 2)` is
  round-half-to-even at two decimals (`pyRound2`), `str.lower()` is
  ASCII lowercasing (`pyLower`), and the substring operator `in` is
  `pyContains`.
* A JSON request payload is a record of optional fields (`Payload`);
  an absent key is `none`.  `payload.get(k, d)` is `Option.getD`.
* In `predict_quantiles.py` the payload becomes a single-row pandas
  DataFrame.  `df.get(c, d)` returns the column (a one-element Series)
  when present, else the scalar default; `str(series)` is the printed
  representation of the Series, modelled by `seriesRepr`, which is how
  the script's `is_auto` line actually behaves.
* All embedded operations are total Lean functions, which reflects that
  the scripts' feature-derivation code never raises on a well-typed
  payload: every missing key is recovered by a `get` default or by the
  fill-with-0 loop.
-/

/-- Python's `str.lower()` restricted to the ASCII case mapping. -/
def pyLower (s : String) : String := String.mk (s.data.map Char.toLower)

/-- Character-list prefix test, helper for the substring operator. -/
def leadsWith : List Char → List Char → Bool
  | [], _ => true
  | _ :: _, [] => false
  | a :: as, b :: bs => a == b && leadsWith as bs

/-- Character-list contiguous-substring test, helper for `pyContains`. -/
def occursIn (n : List Char) : List Char → Bool
  | [] => leadsWith n []
  | h :: t => leadsWith n (h :: t) || occursIn n t

/-- Python's `needle in hay` on strings (contiguous substring). -/
def pyContains (needle hay : String) : Bool := occursIn needle.data hay.data

/-- Python's `int(x)`: truncation toward zero. -/
def pyInt (q : ℚ) : ℤ := if 0 ≤ q then ⌊q⌋ else ⌈q⌉

/-- Round-half-to-even to the nearest integer, as Python's `round` does. -/
def rhe (x : ℚ) : ℤ :=
  if x - ⌊x⌋ < 1/2 then ⌊x⌋
  else if 1/2 < x - ⌊x⌋ then ⌊x⌋ + 1
  else if ⌊x⌋ % 2 = 0 then ⌊x⌋ else ⌊x⌋ + 1

/-- Python's `round(x, 2)`: round-half-to-even at two decimal places. -/
def pyRound2 (q : ℚ) : ℚ := (rhe (q * 100) : ℚ) / 100

/-- The printed representation `str(series)` of a one-element pandas
Series holding the string `v` in a column called `name` (row index 0). -/
def seriesRepr (name v : String) : String :=
  "0    " ++ v ++ "\nName: " ++ name ++ ", dtype: object"

/-- A JSON request payload (`ListingAttributes`): a flat mapping with
optional keys, read via `payload.get(key, default)` in both scripts.
An absent key is `none`. -/
structure Payload where
  year : Option ℤ := none
  km : Option ℚ := none
  gear : Option String := none
  driveline : Option String := none
  fuel_type : Option String := none
  equipment : Option (List String) := none
  equipment_len : Option ℚ := none

/-- The output record printed by both predictor scripts. -/
structure PredictionResult where
  p10 : ℤ
  p50 : ℤ
  p90 : ℤ
  prob14 : ℚ
  prob30 : ℚ

namespace HeuristicPredictor

/-! Embedding of `server/ml/predict_realistic.py`, line by line. -/

/-- `year = payload.get('year', 2018)` -/
def yearAttr (p : Payload) : ℤ := p.year.getD 2018

/-- `km = payload.get('km', 100000)` -/
def kmAttr (p : Payload) : ℚ := p.km.getD 100000

/-- `gear = payload.get('gear', 'Manual')` -/
def gearAttr (p : Payload) : String := p.gear.getD "Manual"

/-- `fuel_type = payload.get('fuel_type', 'Petrol')` -/
def fuelTypeAttr (p : Payload) : String := p.fuel_type.getD "Petrol"

/-- `equipment_score = payload.get('equipment_len', 0)` — note the script
reads the literal `equipment_len` key and never counts `equipment`. -/
def equipmentScore (p : Payload) : ℚ := p.equipment_len.getD 0

/-- `age = 2025 - year` -/
def age (p : Payload) : ℤ := 2025 - yearAttr p

/-- The base-price step function of age (the `if age <= 1: ... else:` chain). -/
def basePriceOfAge (a : ℤ) : ℚ :=
  if a ≤ 1 then 350000
  else if a ≤ 3 then 250000
  else if a ≤ 5 then 180000
  else if a ≤ 7 then 140000
  else if a ≤ 10 then 100000
  else 70000

def basePrice (p : Payload) : ℚ := basePriceOfAge (age p)

/-- `expected_km = age * 12000` -/
def expectedKm (p : Payload) : ℚ := (age p : ℚ) * 12000

/-- `km_diff = km - expected_km` -/
def kmDiff (p : Payload) : ℚ := kmAttr p - expectedKm p

/-- The `if km_diff > 0: ... else: ...` block; `km_penalty` is negative
exactly when the low-mileage bonus branch is taken. -/
def kmPenalty (p : Payload) : ℚ :=
  if 0 < kmDiff p then min (kmDiff p * (1/2)) (basePrice p * (3/10))
  else -(min (|kmDiff p| * (3/10)) (basePrice p * (15/100)))

/-- `if gear.lower() in ['auto', 'automatic', 'automat']: ...` -/
def transAdjustment (p : Payload) : ℚ :=
  if pyLower (gearAttr p) ∈ (["auto", "automatic", "automat"] : List String)
  then basePrice p * (5/100) else 0

/-- `fuel_adjustments.get(fuel_type, 0)` over the literal dict. -/
def fuelAdjustment (p : Payload) : ℚ :=
  if fuelTypeAttr p = "Electric" then basePrice p * (20/100)
  else if fuelTypeAttr p = "Hybrid" then basePrice p * (10/100)
  else if fuelTypeAttr p = "Diesel" then basePrice p * (2/100)
  else if fuelTypeAttr p = "Petrol" then 0
  else if fuelTypeAttr p = "Bensin" then 0
  else 0

/-- `equipment_adjustment = min(equipment_score * 2000, base_price * 0.10)` -/
def equipmentAdjustment (p : Payload) : ℚ :=
  min (equipmentScore p * 2000) (basePrice p * (10/100))

/-- `estimated_price` before the bounds clamp. -/
def estimatedPriceRaw (p : Payload) : ℚ :=
  basePrice p - kmPenalty p + transAdjustment p + fuelAdjustment p
    + equipmentAdjustment p

/-- `estimated_price = max(30000, min(500000, estimated_price))` -/
def estimatedPrice (p : Payload) : ℚ :=
  max 30000 (min 500000 (estimatedPriceRaw p))

/-- `km_factor = max(0.2, min(0.9, 1.0 - (km / 250000)))` -/
def kmFactor (p : Payload) : ℚ :=
  max (2/10) (min (9/10) (1 - kmAttr p / 250000))

/-- `age_factor = max(0.2, min(0.9, 1.0 - (age / 15)))` -/
def ageFactor (p : Payload) : ℚ :=
  max (2/10) (min (9/10) (1 - (age p : ℚ) / 15))

/-- `prob14 = round(0.3 + km_factor * 0.25 + age_factor * 0.25, 2)` -/
def prob14 (p : Payload) : ℚ :=
  pyRound2 (3/10 + kmFactor p * (25/100) + ageFactor p * (25/100))

/-- `prob30 = round(min(0.95, prob14 + 0.20), 2)` -/
def prob30 (p : Payload) : ℚ := pyRound2 (min (95/100) (prob14 p + 20/100))

/-- The result dict written to stdout. -/
def predict (p : Payload) : PredictionResult :=
  { p10 := pyInt (estimatedPrice p * (87/100))
    p50 := pyInt (estimatedPrice p)
    p90 := pyInt (estimatedPrice p * (113/100))
    prob14 := prob14 p
    prob30 := prob30 p }

end HeuristicPredictor

namespace LearnedPredictor

/-! Embedding of `server/ml/predict_quantiles.py`.  The payload becomes a
single-row DataFrame `df = pd.DataFrame([payload])`; a payload key is a
column exactly when it is present. -/

/-- `df.get('gear', 'Manual')` fed to `str(...)`: the Series repr when the
column exists, the default string otherwise. -/
def gearStr (p : Payload) : String :=
  match p.gear with
  | some v => seriesRepr "gear" v
  | none => "Manual"

/-- `df.get('fuel_type', 'Petrol')` fed to `str(...)`. -/
def fuelStr (p : Payload) : String :=
  match p.fuel_type with
  | some v => seriesRepr "fuel_type" v
  | none => "Petrol"

/-- `df['age'] = 2025 - df.get('year', 2018)` -/
def ageCol (p : Payload) : ℚ := ((2025 - p.year.getD 2018 : ℤ) : ℚ)

/-- `df['km_per_year'] = df.get('km', 100000) / df['age'].clip(lower=1)` -/
def kmPerYearCol (p : Payload) : ℚ := p.km.getD 100000 / max 1 (ageCol p)

/-- `df['is_awd'] = int(df.get('driveline', 'FWD') == 'AWD')` — a
value-level comparison of the single cell. -/
def isAwd (p : Payload) : ℚ := if p.driveline.getD "FWD" = "AWD" then 1 else 0

/-- `df['is_auto'] = int(str(df.get('gear', 'Manual')).lower() == 'auto')` —
when the column exists this lowercases the printed Series representation,
not the cell value. -/
def isAuto (p : Payload) : ℚ := if pyLower (gearStr p) = "auto" then 1 else 0

/-- `df['is_electric'] = int(df.get('fuel_type', 'Petrol') == 'Electric')` -/
def isElectric (p : Payload) : ℚ :=
  if p.fuel_type.getD "Petrol" = "Electric" then 1 else 0

/-- `df['is_hybrid'] = int('Hybrid' in str(df.get('fuel_type', 'Petrol')))` -/
def isHybrid (p : Payload) : ℚ := if pyContains "Hybrid" (fuelStr p) then 1 else 0

/-- The numeric value of column `f` of the single-row frame, `none` when
the column is absent (so that the `for f in features: ... df[f] = 0`
loop fills it with 0). -/
def col (p : Payload) (f : String) : Option ℚ :=
  if f = "km" then p.km
  else if f = "year" then p.year.map (fun y => (y : ℚ))
  else if f = "age" then some (ageCol p)
  else if f = "km_per_year" then some (kmPerYearCol p)
  else if f = "equipment_len" then p.equipment_len
  else if f = "is_awd" then some (isAwd p)
  else if f = "is_auto" then some (isAuto p)
  else if f = "is_electric" then some (isElectric p)
  else if f = "is_hybrid" then some (isHybrid p)
  else none

/-- The artifact's ordered feature list, as produced by
`train_quantiles.py` and stored in the pickle. -/
def featuresList : List String :=
  ["km", "year", "age", "km_per_year", "equipment_len", "is_awd",
   "is_auto", "is_electric", "is_hybrid", "season_month", "supply_density"]

/-- `X = df[features].fillna(0)` after the fill loop: the single row
projected onto the artifact's features, absent columns as 0. -/
def featureRow (p : Payload) : List ℚ :=
  featuresList.map fun f => (col p f).getD 0

/-- The loaded model bundle: three fitted regressors, each mapping the
single feature row to a raw prediction.  The regressors are opaque. -/
structure QuantileModelArtifact where
  p10 : List ℚ → ℚ
  p50 : List ℚ → ℚ
  p90 : List ℚ → ℚ

/-- `band = max(1, p90 - p10)` on the raw regressor outputs. -/
def band (m : QuantileModelArtifact) (p : Payload) : ℚ :=
  max 1 (m.p90 (featureRow p) - m.p10 (featureRow p))

/-- `band_factor = max(0.1, min(0.9, 1.0 - band / 500000))` -/
def bandFactor (m : QuantileModelArtifact) (p : Payload) : ℚ :=
  max (1/10) (min (9/10) (1 - band m p / 500000))

/-- `km_factor = max(0.1, min(0.9, 1.0 - km_value / 300000))` with
`km_value = payload.get('km', 100000)`. -/
def kmFactorL (p : Payload) : ℚ :=
  max (1/10) (min (9/10) (1 - p.km.getD 100000 / 300000))

/-- `age_factor = max(0.1, min(0.9, (age_value - 2010) / 15))` with
`age_value = payload.get('year', 2018)` (the raw year, as in the script). -/
def ageFactorL (p : Payload) : ℚ :=
  max (1/10) (min (9/10) (((p.year.getD 2018 : ℤ) : ℚ) - 2010) / 15)

/-- `prob14 = max(0.15, min(0.85, 0.3 + band_factor*0.3 + km_factor*0.2 + age_factor*0.2))` -/
def prob14L (m : QuantileModelArtifact) (p : Payload) : ℚ :=
  max (15/100) (min (85/100)
    (3/10 + bandFactor m p * (3/10) + kmFactorL p * (2/10) + ageFactorL p * (2/10)))

/-- `prob30 = min(0.95, prob14 + 0.15)` -/
def prob30L (m : QuantileModelArtifact) (p : Payload) : ℚ :=
  min (95/100) (prob14L m p + 15/100)

/-- The result dict: raw quantiles truncated by `int(...)`, probabilities
rounded to two decimals. -/
def predict (m : QuantileModelArtifact) (p : Payload) : PredictionResult :=
  { p10 := pyInt (m.p10 (featureRow p))
    p50 := pyInt (m.p50 (featureRow p))
    p90 := pyInt (m.p90 (featureRow p))
    prob14 := pyRound2 (prob14L m p)
    prob30 := pyRound2 (prob30L m p) }

end LearnedPredictor

/-- A historical listing record of the training dataset
(`./seed/finn_sample.json`).  A field whose value is missing in the JSON
becomes NaN in the DataFrame; this is modelled as `none`. -/
structure TrainRecord where
  year : Option ℤ := none
  km : Option ℚ := none
  gear : Option String := none
  driveline : Option String := none
  fuel_type : Option String := none
  equipment : Option (List String) := none
  price : Option ℚ := none

namespace Trainer

/-! Embedding of the data-preparation part of `server/ml/train_quantiles.py`
(feature engineering, feature-matrix fill and target imputation; the
sklearn fitting itself is the opaque part of the artifact). -/

/-- `df['equipment_len'] = df['equipment'].apply(lambda x: len(x) if isinstance(x, list) else 0)` -/
def equipment_len (r : TrainRecord) : ℚ :=
  (r.equipment.map fun l => (l.length : ℚ)).getD 0

/-- `df['is_awd'] = (df['driveline'] == 'AWD').astype(int)` (NaN compares unequal). -/
def is_awd (r : TrainRecord) : ℚ := if r.driveline = some "AWD" then 1 else 0

/-- `df['is_auto'] = (df['gear'].str.lower() == 'auto').astype(int)` —
a per-value comparison; NaN lowercases to NaN and compares unequal. -/
def is_auto (r : TrainRecord) : ℚ :=
  if r.gear.map pyLower = some "auto" then 1 else 0

/-- `df['is_electric'] = (df['fuel_type'] == 'Electric').astype(int)` -/
def is_electric (r : TrainRecord) : ℚ :=
  if r.fuel_type = some "Electric" then 1 else 0

/-- `df['is_hybrid'] = df['fuel_type'].str.contains('Hybrid', na=False).astype(int)` -/
def is_hybrid (r : TrainRecord) : ℚ :=
  if (r.fuel_type.map fun v => pyContains "Hybrid" v).getD false then 1 else 0

/-- `df['age'] = 2025 - df['year']` (NaN propagates). -/
def ageT (r : TrainRecord) : Option ℚ := r.year.map fun y => ((2025 - y : ℤ) : ℚ)

/-- `df['km_per_year'] = df['km'] / df['age'].clip(lower=1)` (NaN propagates). -/
def kmPerYearT (r : TrainRecord) : Option ℚ :=
  match r.km, r.year with
  | some k, some y => some (k / max 1 ((2025 - y : ℤ) : ℚ))
  | _, _ => none

/-- The value of feature column `f` for record `r` before `fillna(0)`;
`none` is NaN.  `season_month` and `supply_density` are the training-time
constants 1 and 12. -/
def featT (r : TrainRecord) (f : String) : Option ℚ :=
  if f = "km" then r.km
  else if f = "year" then r.year.map (fun y => (y : ℚ))
  else if f = "age" then ageT r
  else if f = "km_per_year" then kmPerYearT r
  else if f = "equipment_len" then some (equipment_len r)
  else if f = "is_awd" then some (is_awd r)
  else if f = "is_auto" then some (is_auto r)
  else if f = "is_electric" then some (is_electric r)
  else if f = "is_hybrid" then some (is_hybrid r)
  else if f = "season_month" then some 1
  else if f = "supply_density" then some 12
  else none

/-- One row of `X = df[features].fillna(0)`. -/
def row (r : TrainRecord) : List ℚ :=
  LearnedPredictor.featuresList.map fun f => (featT r f).getD 0

/-- Insert into a sorted list, helper for the pandas median. -/
def insertSorted (x : ℚ) : List ℚ → List ℚ
  | [] => [x]
  | y :: ys => if x ≤ y then x :: y :: ys else y :: insertSorted x ys

/-- Ascending insertion sort, helper for the pandas median. -/
def sortAsc (l : List ℚ) : List ℚ := l.foldr insertSorted []

/-- `Series.median()` restricted to the present (non-NaN) values: middle
element of the sorted values, or the mean of the two middle elements.
pandas returns NaN for an empty series; this embedding is only applied
to datasets in which at least one price is present. -/
def median (l : List ℚ) : ℚ :=
  let s := sortAsc l
  if s.length % 2 = 1 then s.getD (s.length / 2) 0
  else (s.getD (s.length / 2 - 1) 0 + s.getD (s.length / 2) 0) / 2

/-- The prices that are present in the dataset (`df['price']` minus NaN). -/
def prices (rs : List TrainRecord) : List ℚ := rs.filterMap fun r => r.price

/-- `y = df['price'].fillna(df['price'].median())` -/
def target (rs : List TrainRecord) : List ℚ :=
  rs.map fun r => r.price.getD (median (prices rs))

/-- The failures the training script can produce.  `keyError` is the
untyped pandas `KeyError` raised by `df['equipment']` on an empty frame;
`emptyDataset` is the typed error the specification prescribes and the
script never raises. -/
inductive TrainError where
  | keyError : TrainError
  | emptyDataset : TrainError
deriving DecidableEq

/-- The data-preparation pipeline of `train_quantiles.py`: on an empty
dataset the very first feature-engineering line (`df['equipment']`)
raises an untyped `KeyError`; otherwise it produces the filled feature
matrix and imputed target vector. -/
def prepare (rs : List TrainRecord) :
    Except TrainError (List (List ℚ) × List ℚ) :=
  match rs with
  | [] => Except.error TrainError.keyError
  | _ :: _ => Except.ok (rs.map row, target rs)

end Trainer

/-- Modelled from the spec (§4.1): the equipment-count rule the
specification prescribes for every feature-derivation path — the count
of items when an `equipment` sequence is supplied, else the literal
`equipment_len` value, else 0.  Kept separate from the per-script
embeddings above so the two can be compared. -/
def specEquipmentCount (p : Payload) : ℚ :=
  match p.equipment with
  | some xs => (xs.length : ℚ)
  | none => p.equipment_len.getD 0

/-- Modelled from the spec (§4.1, Design Note): the learned-feature-path
`is_auto` rule the specification prescribes — strict equality of the
lowercased supplied gear string (default `"Manual"`) with `"auto"`. -/
def specIsAuto (p : Payload) : ℚ :=
  if pyLower (p.gear.getD "Manual") = "auto" then 1 else 0

/-- The empty attributes mapping `{}`. -/
def emptyPayload : Payload := {}

/-- A payload that supplies every documented default explicitly. -/
def defaultsPayload : Payload :=
  { year := some 2018, km := some 100000, gear := some "Manual",
    driveline := some "FWD", fuel_type := some "Petrol",
    equipment_len := some 0 }

/-- A regressor that returns the first feature of the row (the raw `km`
feature) — a concrete artifact witnessing that the learned path's raw
features reach its output. -/
def projKm : List ℚ → ℚ := fun xs => xs.getD 0 0

def projArtifact : LearnedPredictor.QuantileModelArtifact :=
  { p10 := projKm, p50 := projKm, p90 := projKm }

/-- A payload that supplies an equipment sequence but no literal
`equipment_len`. -/
def equipmentOnlyPayload : Payload :=
  { equipment := some ["panorama roof", "tow hitch", "leather seats"] }

/-- Concrete witness payload: a 2022 car with 20000 km. -/
def witnessPayload : Payload := { year := some 2022, km := some 20000 }

/-- Concrete witness payload: a 2018 car with 200000 km (high mileage). -/
def witnessPayloadHighKm : Payload := { year := some 2018, km := some 200000 }
theorem pyLower_length (s : String) : (pyLower s).length = s.length := by
  show (s.data.map Char.toLower).length = s.data.length
  exact List.length_map _ _

theorem floor_le_rhe (x : ℚ) : ⌊x⌋ ≤ rhe x := by
  unfold rhe; split_ifs <;> omega

theorem rhe_le_floor_add_one (x : ℚ) : rhe x ≤ ⌊x⌋ + 1 := by
  unfold rhe; split_ifs <;> omega

theorem rhe_intCast (n : ℤ) : rhe (n : ℚ) = n := by
  unfold rhe
  rw [Int.floor_intCast]
  have h : (n : ℚ) - n = 0 := by ring
  rw [h]
  norm_num

theorem rhe_mono {x y : ℚ} (h : x ≤ y) : rhe x ≤ rhe y := by
  rcases lt_or_eq_of_le (Int.floor_le_floor h) with hf | hf
  · calc rhe x ≤ ⌊x⌋ + 1 := rhe_le_floor_add_one x
      _ ≤ ⌊y⌋ := by omega
      _ ≤ rhe y := floor_le_rhe y
  · unfold rhe
    rw [← hf]
    split_ifs <;> first | omega | linarith

theorem pyRound2_mono {x y : ℚ} (h : x ≤ y) : pyRound2 x ≤ pyRound2 y := by
  unfold pyRound2
  have h1 : rhe (x * 100) ≤ rhe (y * 100) := rhe_mono (by linarith)
  have h2 : ((rhe (x * 100) : ℤ) : ℚ) ≤ ((rhe (y * 100) : ℤ) : ℚ) := by
    exact_mod_cast h1
  linarith

theorem pyRound2_hundredth (n : ℤ) : pyRound2 ((n : ℚ) / 100) = (n : ℚ) / 100 := by
  unfold pyRound2
  have h : ((n : ℚ) / 100) * 100 = (n : ℚ) := by ring
  rw [h, rhe_intCast]

theorem pyRound2_eq_hundredth (q : ℚ) : ∃ n : ℤ, pyRound2 q = (n : ℚ) / 100 :=
  ⟨rhe (q * 100), rfl⟩


theorem pyRound2_le_95 {q : ℚ} (h : q ≤ 95/100) : pyRound2 q ≤ 95/100 := by
  have h1 : pyRound2 q ≤ pyRound2 (((95 : ℤ) : ℚ) / 100) :=
    pyRound2_mono (by push_cast; linarith)
  rw [pyRound2_hundredth] at h1
  push_cast at h1
  linarith

theorem pyInt_of_nonneg {q : ℚ} (h : 0 ≤ q) : pyInt q = ⌊q⌋ := if_pos h

theorem seriesRepr_not_auto (name v : String) :
    pyLower (seriesRepr name v) ≠ "auto" := by
  intro h
  have hl := congrArg String.length h
  rw [pyLower_length] at hl
  have h4 : ("auto" : String).length = 4 := rfl
  rw [h4] at hl
  unfold seriesRepr at hl
  rw [String.length_append, String.length_append, String.length_append,
    String.length_append] at hl
  have h5 : ("0    " : String).length = 5 := rfl
  have h7 : ("\nName: " : String).length = 7 := rfl
  have h15 : (", dtype: object" : String).length = 15 := rfl
  rw [h5, h7, h15] at hl
  omega

namespace HeuristicPredictor

theorem basePriceOfAge_ge (a : ℤ) : 70000 ≤ basePriceOfAge a := by
  unfold basePriceOfAge; split_ifs <;> norm_num

theorem basePriceOfAge_le (a : ℤ) : basePriceOfAge a ≤ 350000 := by
  unfold basePriceOfAge; split_ifs <;> norm_num

theorem estimatedPrice_lb (p : Payload) : 30000 ≤ estimatedPrice p :=
  le_max_left _ _

theorem estimatedPrice_ub (p : Payload) : estimatedPrice p ≤ 500000 :=
  max_le (by norm_num) (min_le_left _ _)

theorem kmFactor_mem (p : Payload) : 2/10 ≤ kmFactor p ∧ kmFactor p ≤ 9/10 :=
  ⟨le_max_left _ _, max_le (by norm_num) (min_le_left _ _)⟩

theorem ageFactor_mem (p : Payload) : 2/10 ≤ ageFactor p ∧ ageFactor p ≤ 9/10 :=
  ⟨le_max_left _ _, max_le (by norm_num) (min_le_left _ _)⟩

theorem prob14_mem (p : Payload) : 2/5 ≤ prob14 p ∧ prob14 p ≤ 3/4 := by
  have hk := kmFactor_mem p
  have ha := ageFactor_mem p
  constructor
  · have h1 : (2/5 : ℚ) = pyRound2 (((40 : ℤ) : ℚ) / 100) := by
      rw [pyRound2_hundredth]; norm_num
    rw [h1]
    exact pyRound2_mono (by nlinarith [hk.1, ha.1])
  · have h1 : (3/4 : ℚ) = pyRound2 (((75 : ℤ) : ℚ) / 100) := by
      rw [pyRound2_hundredth]; norm_num
    rw [h1]
    exact pyRound2_mono (by nlinarith [hk.2, ha.2])

theorem prob30_eq (p : Payload) : prob30 p = prob14 p + 20/100 := by
  obtain ⟨n, hn⟩ := pyRound2_eq_hundredth
    (3/10 + kmFactor p * (25/100) + ageFactor p * (25/100))
  have h14 : prob14 p = (n : ℚ) / 100 := hn
  have hle : prob14 p ≤ 3/4 := (prob14_mem p).2
  have hmin : min (95/100 : ℚ) (prob14 p + 20/100) = prob14 p + 20/100 :=
    min_eq_right (by linarith)
  have hsum : prob14 p + 20/100 = ((n + 20 : ℤ) : ℚ) / 100 := by
    rw [h14]; push_cast; ring
  unfold prob30
  rw [hmin, hsum, pyRound2_hundredth]

end HeuristicPredictor

namespace LearnedPredictor

theorem isAuto_eq_zero (p : Payload) : isAuto p = 0 := by
  unfold isAuto gearStr
  cases hg : p.gear with
  | none => rw [if_neg (by decide)]
  | some v => rw [if_neg (seriesRepr_not_auto "gear" v)]

theorem featureRow_eq (p : Payload) :
    featureRow p =
      [p.km.getD 0, (p.year.map fun y => (y : ℚ)).getD 0, ageCol p,
       kmPerYearCol p, p.equipment_len.getD 0, isAwd p, isAuto p,
       isElectric p, isHybrid p, 0, 0] := rfl

theorem featureRow_gear (p : Payload) (g : Option String) :
    featureRow { p with gear := g } = featureRow p := by
  rw [featureRow_eq, featureRow_eq, isAuto_eq_zero, isAuto_eq_zero]
  exact rfl

theorem prob14L_congr (m : QuantileModelArtifact) {p q : Payload}
    (hX : featureRow p = featureRow q) (hkm : p.km = q.km)
    (hyr : p.year = q.year) : prob14L m p = prob14L m q := by
  unfold prob14L bandFactor band kmFactorL ageFactorL
  rw [hX, hkm, hyr]

theorem predict_congr (m : QuantileModelArtifact) {p q : Payload}
    (hX : featureRow p = featureRow q) (hkm : p.km = q.km)
    (hyr : p.year = q.year) : predict m p = predict m q := by
  unfold predict prob30L
  rw [hX, prob14L_congr m hX hkm hyr]

theorem prob14L_mem (m : QuantileModelArtifact) (p : Payload) :
    15/100 ≤ prob14L m p ∧ prob14L m p ≤ 85/100 :=
  ⟨le_max_left _ _, max_le (by norm_num) (min_le_left _ _)⟩

theorem prob14L_le_prob30L (m : QuantileModelArtifact) (p : Payload) :
    prob14L m p ≤ prob30L m p := by
  have h := (prob14L_mem m p).2
  exact le_min (by linarith) (by linarith)

theorem ageCol_empty : ageCol emptyPayload = 7 := by
  norm_num [ageCol, emptyPayload]

theorem kmPerYearCol_empty : kmPerYearCol emptyPayload = 100000 / 7 := by
  unfold kmPerYearCol
  rw [ageCol_empty]
  have hmax : max (1 : ℚ) 7 = 7 := max_eq_right (by norm_num)
  rw [hmax]
  norm_num [emptyPayload]

theorem ageCol_defaults : ageCol defaultsPayload = 7 := by
  norm_num [ageCol, defaultsPayload]

theorem kmPerYearCol_defaults : kmPerYearCol defaultsPayload = 100000 / 7 := by
  unfold kmPerYearCol
  rw [ageCol_defaults]
  have hmax : max (1 : ℚ) 7 = 7 := max_eq_right (by norm_num)
  rw [hmax]
  norm_num [defaultsPayload]

theorem featureRow_empty :
    featureRow emptyPayload = [0, 0, 7, 100000/7, 0, 0, 0, 0, 0, 0, 0] := by
  rw [featureRow_eq, isAuto_eq_zero, ageCol_empty, kmPerYearCol_empty]
  have hhyb : isHybrid emptyPayload = 0 := by
    norm_num [isHybrid, fuelStr, emptyPayload,
      show pyContains "Hybrid" "Petrol" = false from by decide]
  rw [hhyb]
  norm_num [emptyPayload, isAwd, isElectric]
  decide

theorem featureRow_defaults :
    featureRow defaultsPayload = [100000, 2018, 7, 100000/7, 0, 0, 0, 0, 0, 0, 0] := by
  rw [featureRow_eq, isAuto_eq_zero, ageCol_defaults, kmPerYearCol_defaults]
  have hhyb : isHybrid defaultsPayload = 0 := by
    norm_num [isHybrid, fuelStr, defaultsPayload,
      show pyContains "Hybrid" (seriesRepr "fuel_type" "Petrol") = false from by decide]
  rw [hhyb]
  norm_num [defaultsPayload, isAwd, isElectric]
  decide

end LearnedPredictor

/-- Claim C1: for every valid ListingAttributes (km a non-negative number,
year an integer), HeuristicPredictor.predict never raises (the embedding
is a total function) and its result satisfies
30000*0.87 ≤ p10 ≤ p50 ≤ p90 ≤ 500000*1.13 and
0.15 ≤ prob14 ≤ prob30 ≤ 0.95. -/
theorem heuristic_predict_bounds (p : Payload)
    (hkm : ∀ q, p.km = some q → 0 ≤ q) :
    30000 * (87/100 : ℚ) ≤ ((HeuristicPredictor.predict p).p10 : ℚ) ∧
    (HeuristicPredictor.predict p).p10 ≤ (HeuristicPredictor.predict p).p50 ∧
    (HeuristicPredictor.predict p).p50 ≤ (HeuristicPredictor.predict p).p90 ∧
    ((HeuristicPredictor.predict p).p90 : ℚ) ≤ 500000 * (113/100) ∧
    (15/100 : ℚ) ≤ (HeuristicPredictor.predict p).prob14 ∧
    (HeuristicPredictor.predict p).prob14 ≤ (HeuristicPredictor.predict p).prob30 ∧
    (HeuristicPredictor.predict p).prob30 ≤ 95/100 := by
  have he1 := HeuristicPredictor.estimatedPrice_lb p
  have he2 := HeuristicPredictor.estimatedPrice_ub p
  have h14 := HeuristicPredictor.prob14_mem p
  have h30 := HeuristicPredictor.prob30_eq p
  set e := HeuristicPredictor.estimatedPrice p with hedef
  have he0 : (0 : ℚ) ≤ e := by linarith
  have hp10 : (HeuristicPredictor.predict p).p10 = ⌊e * (87/100)⌋ :=
    pyInt_of_nonneg (by nlinarith)
  have hp50 : (HeuristicPredictor.predict p).p50 = ⌊e⌋ := pyInt_of_nonneg he0
  have hp90 : (HeuristicPredictor.predict p).p90 = ⌊e * (113/100)⌋ :=
    pyInt_of_nonneg (by nlinarith)
  refine ⟨?_, ?_, ?_, ?_, ?_, ?_, ?_⟩
  · rw [hp10]
    have h : (26100 : ℤ) ≤ ⌊e * (87/100)⌋ := by
      rw [Int.le_floor]
      push_cast
      nlinarith
    have h2 : ((26100 : ℤ) : ℚ) ≤ (⌊e * (87/100)⌋ : ℚ) := by exact_mod_cast h
    push_cast at h2
    linarith
  · rw [hp10, hp50]
    exact Int.floor_le_floor (by nlinarith)
  · rw [hp50, hp90]
    exact Int.floor_le_floor (by nlinarith)
  · rw [hp90]
    have h : (⌊e * (113/100)⌋ : ℚ) ≤ e * (113/100) := Int.floor_le _
    nlinarith
  · show (15/100 : ℚ) ≤ HeuristicPredictor.prob14 p
    linarith [h14.1]
  · show HeuristicPredictor.prob14 p ≤ HeuristicPredictor.prob30 p
    linarith [h30]
  · show HeuristicPredictor.prob30 p ≤ 95/100
    linarith [h30, h14.2]

/-- Witness for C1 at the concrete payload {year: 2022, km: 20000}. -/
theorem heuristic_predict_bounds_witness :
    (∀ q, witnessPayload.km = some q → 0 ≤ q) ∧
    (30000 * (87/100 : ℚ) ≤ ((HeuristicPredictor.predict witnessPayload).p10 : ℚ) ∧
     (HeuristicPredictor.predict witnessPayload).p10 ≤ (HeuristicPredictor.predict witnessPayload).p50 ∧
     (HeuristicPredictor.predict witnessPayload).p50 ≤ (HeuristicPredictor.predict witnessPayload).p90 ∧
     ((HeuristicPredictor.predict witnessPayload).p90 : ℚ) ≤ 500000 * (113/100) ∧
     (15/100 : ℚ) ≤ (HeuristicPredictor.predict witnessPayload).prob14 ∧
     (HeuristicPredictor.predict witnessPayload).prob14 ≤ (HeuristicPredictor.predict witnessPayload).prob30 ∧
     (HeuristicPredictor.predict witnessPayload).prob30 ≤ 95/100) := by
  have hkm : ∀ q, witnessPayload.km = some q → 0 ≤ q := by
    intro q hq
    have h2 : (20000 : ℚ) = q := Option.some.inj hq
    rw [← h2]
    norm_num
  exact ⟨hkm, heuristic_predict_bounds witnessPayload hkm⟩

/-- Claim C5: for every input, both predictors return results with
prob30 ≥ prob14 and prob30 ≤ 0.95 (the learned side holds for every
artifact, i.e. for arbitrary regressors). -/
theorem predictors_prob_ordering (p : Payload)
    (m : LearnedPredictor.QuantileModelArtifact) :
    (HeuristicPredictor.predict p).prob14 ≤ (HeuristicPredictor.predict p).prob30 ∧
    (HeuristicPredictor.predict p).prob30 ≤ 95/100 ∧
    (LearnedPredictor.predict m p).prob14 ≤ (LearnedPredictor.predict m p).prob30 ∧
    (LearnedPredictor.predict m p).prob30 ≤ 95/100 := by
  have h14 := HeuristicPredictor.prob14_mem p
  have h30 := HeuristicPredictor.prob30_eq p
  refine ⟨by show HeuristicPredictor.prob14 p ≤ HeuristicPredictor.prob30 p; linarith,
    by show HeuristicPredictor.prob30 p ≤ 95/100; linarith [h14.2], ?_, ?_⟩
  · show pyRound2 (LearnedPredictor.prob14L m p) ≤ pyRound2 (LearnedPredictor.prob30L m p)
    exact pyRound2_mono (LearnedPredictor.prob14L_le_prob30L m p)
  · show pyRound2 (LearnedPredictor.prob30L m p) ≤ 95/100
    exact pyRound2_le_95 (min_le_left _ _)

/-- Claim C6: in the heuristic predictor, with km_diff = km - age*12000:
a positive km_diff yields a price reduction of exactly
min(0.5*km_diff, 0.3*base_price), a negative km_diff yields a price
increase of exactly min(0.3*|km_diff|, 0.15*base_price), and no request
receives both a (positive) reduction and a (positive) increase. -/
theorem heuristic_km_adjustment (p : Payload) :
    (0 < HeuristicPredictor.kmDiff p →
      HeuristicPredictor.kmPenalty p =
        min (HeuristicPredictor.kmDiff p * (1/2))
          (HeuristicPredictor.basePrice p * (3/10))) ∧
    (HeuristicPredictor.kmDiff p < 0 →
      -HeuristicPredictor.kmPenalty p =
        min (|HeuristicPredictor.kmDiff p| * (3/10))
          (HeuristicPredictor.basePrice p * (15/100))) ∧
    (max (HeuristicPredictor.kmPenalty p) 0 = 0 ∨
      max (-HeuristicPredictor.kmPenalty p) 0 = 0) := by
  have hbp : (70000 : ℚ) ≤ HeuristicPredictor.basePrice p :=
    HeuristicPredictor.basePriceOfAge_ge _
  by_cases h : 0 < HeuristicPredictor.kmDiff p
  · refine ⟨fun _ => by rw [HeuristicPredictor.kmPenalty, if_pos h], fun h2 => absurd h (by linarith), Or.inr ?_⟩
    have hpen : 0 ≤ HeuristicPredictor.kmPenalty p := by
      rw [HeuristicPredictor.kmPenalty, if_pos h]
      exact le_min (by nlinarith) (by nlinarith)
    exact max_eq_right (by linarith)
  · refine ⟨fun h2 => absurd h2 h, fun _ => by rw [HeuristicPredictor.kmPenalty, if_neg h, neg_neg], Or.inl ?_⟩
    have hpen : HeuristicPredictor.kmPenalty p ≤ 0 := by
      rw [HeuristicPredictor.kmPenalty, if_neg h]
      have h0 : (0 : ℚ) ≤ min (|HeuristicPredictor.kmDiff p| * (3/10))
          (HeuristicPredictor.basePrice p * (15/100)) :=
        le_min (by positivity) (by nlinarith)
      linarith
    exact max_eq_right hpen

/-- Witness for C6 at {year: 2018, km: 200000} (positive km_diff). -/
theorem heuristic_km_adjustment_witness :
    0 < HeuristicPredictor.kmDiff witnessPayloadHighKm ∧
    HeuristicPredictor.kmPenalty witnessPayloadHighKm =
      min (HeuristicPredictor.kmDiff witnessPayloadHighKm * (1/2))
        (HeuristicPredictor.basePrice witnessPayloadHighKm * (3/10)) := by
  have h : 0 < HeuristicPredictor.kmDiff witnessPayloadHighKm := by
    norm_num [HeuristicPredictor.kmDiff, HeuristicPredictor.kmAttr,
      HeuristicPredictor.expectedKm, HeuristicPredictor.age,
      HeuristicPredictor.yearAttr, witnessPayloadHighKm]
  exact ⟨h, (heuristic_km_adjustment witnessPayloadHighKm).1 h⟩

/-- Claim C7: the heuristic base price is exactly the documented step
function of age, and is monotonically non-increasing in age. -/
theorem heuristic_base_price_step :
    (∀ a : ℤ,
      (a ≤ 1 → HeuristicPredictor.basePriceOfAge a = 350000) ∧
      (1 < a → a ≤ 3 → HeuristicPredictor.basePriceOfAge a = 250000) ∧
      (3 < a → a ≤ 5 → HeuristicPredictor.basePriceOfAge a = 180000) ∧
      (5 < a → a ≤ 7 → HeuristicPredictor.basePriceOfAge a = 140000) ∧
      (7 < a → a ≤ 10 → HeuristicPredictor.basePriceOfAge a = 100000) ∧
      (10 < a → HeuristicPredictor.basePriceOfAge a = 70000)) ∧
    (∀ a1 a2 : ℤ, a1 ≤ a2 →
      HeuristicPredictor.basePriceOfAge a2 ≤ HeuristicPredictor.basePriceOfAge a1) := by
  constructor
  · intro a
    unfold HeuristicPredictor.basePriceOfAge
    refine ⟨fun h => ?_, fun h1 h2 => ?_, fun h1 h2 => ?_, fun h1 h2 => ?_,
      fun h1 h2 => ?_, fun h1 => ?_⟩ <;>
      split_ifs <;> first | rfl | (exfalso; omega)
  · intro a1 a2 h
    unfold HeuristicPredictor.basePriceOfAge
    split_ifs <;> first | (exfalso; omega) | norm_num

/-- Witness for C7 at ages 0 (≤ 1 band) and 2 ≤ 8 (monotonicity). -/
theorem heuristic_base_price_step_witness :
    ((0 : ℤ) ≤ 1 ∧ HeuristicPredictor.basePriceOfAge 0 = 350000) ∧
    ((2 : ℤ) ≤ 8 ∧
      HeuristicPredictor.basePriceOfAge 8 ≤ HeuristicPredictor.basePriceOfAge 2) :=
  ⟨⟨by decide, (heuristic_base_price_step.1 0).1 (by decide)⟩,
   ⟨by decide, heuristic_base_price_step.2 2 8 (by decide)⟩⟩

/-- Claim C10: the heuristic predictor never reads the driveline
attribute — two payloads differing only in driveline (present, absent,
or any value) give identical results. -/
theorem heuristic_ignores_driveline (p : Payload) (d : Option String) :
    HeuristicPredictor.predict { p with driveline := d } =
      HeuristicPredictor.predict p := by
  cases p
  rfl

/-- Claim C2 (code bug): at the failing input {gear: "auto"} the learned
path derives is_auto = 0 while the documented rule gives 1 — the script
lowercases the printed representation of the pandas Series
(`str(df.get('gear', 'Manual'))`), never the cell value, so the strict
comparison with "auto" is always false. -/
theorem learned_is_auto_bug :
    LearnedPredictor.isAuto { gear := some "auto" } = 0 ∧
    specIsAuto { gear := some "auto" } = 1 := by
  refine ⟨LearnedPredictor.isAuto_eq_zero _, ?_⟩
  unfold specIsAuto
  rw [if_pos (by decide)]

/-- Claim C9: in the learned path the derived is_auto feature is 0 for
every payload, and consequently any two payloads that differ only in
the gear key yield the same feature row and the same prediction result,
for every artifact. -/
theorem learned_gear_noninterference :
    (∀ p : Payload, LearnedPredictor.isAuto p = 0) ∧
    (∀ (p : Payload) (g : Option String),
      LearnedPredictor.featureRow { p with gear := g } =
        LearnedPredictor.featureRow p) ∧
    (∀ (m : LearnedPredictor.QuantileModelArtifact) (p : Payload)
        (g : Option String),
      LearnedPredictor.predict m { p with gear := g } =
        LearnedPredictor.predict m p) :=
  ⟨LearnedPredictor.isAuto_eq_zero, LearnedPredictor.featureRow_gear,
   fun m p g => LearnedPredictor.predict_congr m
     (LearnedPredictor.featureRow_gear p g) rfl rfl⟩

/-- Claim C3 (amended): the empty attributes mapping raises in neither
predictor (both embeddings are total functions); the heuristic predictor
behaves exactly as if every documented default had been supplied; the
learned path applies the defaults inside its derived features
(age = 7, km_per_year = 100000/7) but fills the raw km, year and
equipment_len features of the empty payload with 0, not with the
documented defaults. -/
theorem empty_payload_defaulting :
    HeuristicPredictor.predict emptyPayload =
      HeuristicPredictor.predict defaultsPayload ∧
    LearnedPredictor.featureRow emptyPayload =
      [0, 0, 7, 100000/7, 0, 0, 0, 0, 0, 0, 0] ∧
    LearnedPredictor.featureRow defaultsPayload =
      [100000, 2018, 7, 100000/7, 0, 0, 0, 0, 0, 0, 0] :=
  ⟨rfl, LearnedPredictor.featureRow_empty, LearnedPredictor.featureRow_defaults⟩

/-- Claim C3 counterexample: with the artifact whose regressors return
the raw km feature, the empty payload and the all-defaults payload give
different learned predictions (p50 of 0 vs 100000), so the learned path
does not behave as if the documented km default had been supplied. -/
theorem empty_payload_not_as_defaults :
    LearnedPredictor.predict projArtifact emptyPayload ≠
      LearnedPredictor.predict projArtifact defaultsPayload := by
  intro h
  have hL : (LearnedPredictor.predict projArtifact emptyPayload).p50 = 0 := by
    show pyInt (projArtifact.p50 (LearnedPredictor.featureRow emptyPayload)) = 0
    rw [LearnedPredictor.featureRow_empty]
    show pyInt 0 = 0
    rw [pyInt_of_nonneg le_rfl, Int.floor_zero]
  have hR : (LearnedPredictor.predict projArtifact defaultsPayload).p50 = 100000 := by
    show pyInt (projArtifact.p50 (LearnedPredictor.featureRow defaultsPayload)) = 100000
    rw [LearnedPredictor.featureRow_defaults]
    show pyInt 100000 = 100000
    rw [pyInt_of_nonneg (by norm_num)]
    norm_num
  have h50 := congrArg PredictionResult.p50 h
  rw [hL, hR] at h50
  exact absurd h50 (by decide)

/-- Claim C4 counterexample: for a payload supplying an equipment
sequence of 3 items and no literal equipment_len, the heuristic and
learned paths use the count 0 — they never count the sequence — while
the documented rule gives 3. -/
theorem equipment_count_counterexample :
    HeuristicPredictor.equipmentScore equipmentOnlyPayload = 0 ∧
    (LearnedPredictor.featureRow equipmentOnlyPayload).getD 4 0 = 0 ∧
    specEquipmentCount equipmentOnlyPayload = 3 ∧
    (0 : ℚ) ≠ 3 := by
  refine ⟨rfl, ?_, ?_, by norm_num⟩
  · rw [LearnedPredictor.featureRow_eq]
    rfl
  · show ((["panorama roof", "tow hitch", "leather seats"] : List String).length : ℚ) = 3
    norm_num

/-- Claim C4 (amended): the heuristic and learned prediction paths use
the literal equipment_len value (default 0) as the equipment count and
ignore a supplied equipment sequence entirely; the training path counts
the items of the equipment list (0 when the value is not a list) and
has no literal equipment_len fallback. -/
theorem equipment_count_per_path :
    (∀ p : Payload,
      HeuristicPredictor.equipmentScore p = p.equipment_len.getD 0) ∧
    (∀ p : Payload,
      (LearnedPredictor.featureRow p).getD 4 0 = p.equipment_len.getD 0) ∧
    (∀ (p : Payload) (e : Option (List String)),
      HeuristicPredictor.predict { p with equipment := e } =
        HeuristicPredictor.predict p) ∧
    (∀ (m : LearnedPredictor.QuantileModelArtifact) (p : Payload)
        (e : Option (List String)),
      LearnedPredictor.predict m { p with equipment := e } =
        LearnedPredictor.predict m p) ∧
    (∀ r : TrainRecord,
      (Trainer.row r).getD 4 0 =
        (r.equipment.map fun l => ((l.length : ℚ))).getD 0) :=
  ⟨fun _ => rfl,
   fun p => by rw [LearnedPredictor.featureRow_eq]; rfl,
   fun p e => by cases p; rfl,
   fun m p e => by cases p; rfl,
   fun _ => rfl⟩

/-- Claim C8 (amended): the trainer's data preparation fails on the
empty dataset — but with the untyped pandas KeyError, not a typed
EmptyDataset — and does not fail when individual field values are
missing: it succeeds on every nonempty dataset, imputes each missing
price to the median of the present prices, and fills missing feature
values (here: a missing km, hence also km_per_year) with 0. -/
theorem trainer_empty_and_imputation :
    Trainer.prepare [] = Except.error Trainer.TrainError.keyError ∧
    (∀ (r : TrainRecord) (rs : List TrainRecord),
      Trainer.prepare (r :: rs) =
        Except.ok ((r :: rs).map Trainer.row,
          (r :: rs).map fun s =>
            s.price.getD (Trainer.median (Trainer.prices (r :: rs))))) ∧
    (∀ (rs : List TrainRecord) (r : TrainRecord), r ∈ rs → r.price = none →
      r.price.getD (Trainer.median (Trainer.prices rs)) =
        Trainer.median (Trainer.prices rs)) ∧
    (∀ r : TrainRecord, r.km = none →
      (Trainer.row r).getD 0 0 = 0 ∧ (Trainer.row r).getD 3 0 = 0) := by
  refine ⟨rfl, fun r rs => rfl, fun rs r hmem hp => by rw [hp]; rfl,
    fun r hkm => ⟨?_, ?_⟩⟩
  · show (Trainer.featT r "km").getD 0 = 0
    show r.km.getD 0 = 0
    rw [hkm]
    rfl
  · show (Trainer.featT r "km_per_year").getD 0 = 0
    show (Trainer.kmPerYearT r).getD 0 = 0
    unfold Trainer.kmPerYearT
    rw [hkm]
    cases r.year <;> rfl

/-- Witness for C8 at the all-missing record {} and dataset [{}]. -/
theorem trainer_empty_and_imputation_witness :
    (({} : TrainRecord) ∈ [({} : TrainRecord)] ∧
      ({} : TrainRecord).price.getD
          (Trainer.median (Trainer.prices [({} : TrainRecord)])) =
        Trainer.median (Trainer.prices [({} : TrainRecord)])) ∧
    (({} : TrainRecord).km = none ∧
      (Trainer.row ({} : TrainRecord)).getD 0 0 = 0 ∧
      (Trainer.row ({} : TrainRecord)).getD 3 0 = 0) := by
  refine ⟨⟨List.mem_singleton_self _, ?_⟩, rfl,
    trainer_empty_and_imputation.2.2.2 {} rfl⟩
  exact trainer_empty_and_imputation.2.2.1 [{}] {} (List.mem_singleton_self _) rfl

/-- Claim C8 counterexample: on the empty dataset the preparation fails
with the untyped KeyError, which is not the claimed typed EmptyDataset. -/
theorem trainer_error_untyped :
    Trainer.prepare [] = Except.error Trainer.TrainError.keyError ∧
    Trainer.TrainError.keyError ≠ Trainer.TrainError.emptyDataset :=
  ⟨rfl, by decide⟩
